import Mathlib

/-!
# Column metadata lookup of the SQLite driver

A shallow embedding of `SQLiteConn.TableColumnMetadata`
(`sqlite3_opt_table_column_metadata.go`) and of its compiled-out variant
(`sqlite3_opt_table_column_metadata_omit.go`).

The native engine is an external collaborator reached through cgo.  It is a
parameter of the embedding: a deterministic machine over an abstract state
`σ` (what the handle `c.db` points to).  Every native entry point the method
invokes is recorded, in order, so that "no native call is made" is a
statement about the record.

Go strings are `String` (Go strings that are not valid UTF-8 have no
counterpart here).  A value of type `*C.char` is `Option String`:
`none` is the null pointer, `some s` points to the C string whose bytes before
the terminator are `s`.  A `C.int` is an `Int`.  A Go `error` is
`Option String`: `none` is `nil`, `some t` is an error whose text is `t`.
-/

namespace sqlite3

/-- Modelled from the spec: the "success" status of the native call. The
constant `SQLITE_OK` is declared in `sqlite3.h`, which is not among the
sources (its value there is 0). The method only compares the returned status
with it, and no theorem over an arbitrary engine depends on the value. -/
def SQLITE_OK : Int := 0

/-- The cgo function `C.CString`: the Go string is copied and a terminator appended, so native
code sees the bytes before the first NUL. -/
def CString (s : String) : String :=
  String.mk (s.data.takeWhile (fun ch => ch ≠ Char.ofNat 0))

/-- The cgo function `C.GoString`: the C string a pointer refers to, as a Go string; the null
pointer gives the empty string. -/
def GoString (p : Option String) : String :=
  match p with
  | none => ""
  | some s => s

/-- The five output parameters handed to the native call by address:
`pzDataType`, `pzCollSeq`, `pNotNull`, `pPrimaryKey`, `pAutoinc`. -/
structure OutParams where
  pzDataType : Option String
  pzCollSeq : Option String
  pNotNull : Int
  pPrimaryKey : Int
  pAutoinc : Int
  deriving DecidableEq, Repr

/-- The native entry points the method can invoke, with the arguments that
cross the boundary. -/
inductive NativeCall where
  | sqlite3_table_column_metadata (zSchema : Option String) (zTable zColumn : String)
  | sqlite3_errmsg
  deriving DecidableEq, Repr

/-- The native engine behind a connection handle, over its state `σ`.
`sqlite3_table_column_metadata` receives the three marshalled names and the
initial contents of the output parameters; it returns the status, the final
contents of the output parameters and the next state.  `sqlite3_errmsg`
returns the current error text of the connection. -/
structure Engine (σ : Type) where
  sqlite3_table_column_metadata :
    σ → Option String → String → String → OutParams → Int × OutParams × σ
  sqlite3_errmsg : σ → Option String × σ

/-- The connection object; `db` is the native handle (here: the engine state
it designates). -/
structure SQLiteConn (σ : Type) where
  db : σ

/-- The six values the method returns. -/
structure Returned where
  dataType : String
  collSeq : String
  notNull : Bool
  primaryKey : Bool
  autoinc : Bool
  err : Option String
  deriving DecidableEq, Repr

/-- One execution of the method: what it returned, the engine state it left
behind, and the native entry points it invoked, in order. -/
structure Outcome (σ : Type) where
  ret : Returned
  db : σ
  calls : List NativeCall

/-- Lines 41-49 of `sqlite3_opt_table_column_metadata.go`: the schema argument
as handed to the native call, the null pointer for the empty string and a C
copy otherwise. -/
def zSchemaOf (schema : String) : Option String :=
  if schema ≠ "" then some (CString schema) else none

/-- Lines 50-73 of `sqlite3_opt_table_column_metadata.go`: the native call as
the method issues it, on the marshalled names and with the output parameters
initialised to null and zero. The result is the status `rc`, the final
contents of the output parameters and the engine state after the call. -/
def callNative {σ : Type} (c : SQLiteConn σ) (E : Engine σ)
    (schema table column : String) : Int × OutParams × σ :=
  E.sqlite3_table_column_metadata c.db (zSchemaOf schema) (CString table) (CString column)
    ⟨none, none, 0, 0, 0⟩

/-- Method `SQLiteConn.TableColumnMetadata` of `sqlite3_opt_table_column_metadata.go`. -/
def SQLiteConn.TableColumnMetadata {σ : Type} (c : SQLiteConn σ) (E : Engine σ)
    (schema table column : String) : Outcome σ :=
  if table = "" then
    ⟨⟨"", "", false, false, false, some "table name cannot be empty"⟩, c.db, []⟩
  else if column = "" then
    ⟨⟨"", "", false, false, false, some "column name cannot be empty"⟩, c.db, []⟩
  else
    -- Call the C function
    let r := callNative c E schema table column
    let rc : Int := r.1
    let out : OutParams := r.2.1
    let db1 : σ := r.2.2
    let call :=
      NativeCall.sqlite3_table_column_metadata (zSchemaOf schema) (CString table) (CString column)
    if rc ≠ SQLITE_OK then
      let m := E.sqlite3_errmsg db1
      ⟨⟨"", "", false, false, false,
          some ("sqlite3_table_column_metadata failed: " ++ GoString m.1)⟩,
        m.2, [call, NativeCall.sqlite3_errmsg]⟩
    else
      -- Convert C results to Go types
      let goDataType : String := if out.pzDataType ≠ none then GoString out.pzDataType else ""
      let goCollSeq : String := if out.pzCollSeq ≠ none then GoString out.pzCollSeq else ""
      ⟨⟨goDataType, goCollSeq, decide (out.pNotNull ≠ 0), decide (out.pPrimaryKey ≠ 0),
          decide (out.pAutoinc ≠ 0), none⟩,
        db1, [call]⟩

namespace Omit

/-- Method `SQLiteConn.TableColumnMetadata` of
`sqlite3_opt_table_column_metadata_omit.go`, the variant built under
`libsqlite3 && !sqlite_column_metadata`. It has no access to native entry
points. -/
def TableColumnMetadata {σ : Type} (c : SQLiteConn σ)
    (schema table column : String) : Outcome σ :=
  ⟨⟨"", "", false, false, false,
      some "sqlite3: TableColumnMetadata requires the sqlite_column_metadata build tag when using the libsqlite3 build tag"⟩,
    c.db, []⟩

end Omit

/-! ## Engines used for evaluation -/

/-- An engine that answers every lookup with the same status and output
contents and whose error text is always `msg`. -/
def constEngine (rc : Int) (out : OutParams) (msg : Option String) : Engine Unit where
  sqlite3_table_column_metadata := fun db _ _ _ _ => (rc, out, db)
  sqlite3_errmsg := fun db => (msg, db)

/-- An engine holding the table of `TestTableColumnMetadata`
(`test_table` with columns `id`, `name`, `value`, `created_at`) in schema
`main`. Its state is the current error text of the connection. A failed
lookup leaves the output parameters as they were. -/
def testEngine : Engine String where
  sqlite3_table_column_metadata := fun _ zSchema zTable zColumn out0 =>
    if (zSchema = none ∨ zSchema = some "main") ∧ zTable = "test_table" then
      if zColumn = "id" then
        (0, ⟨some "INTEGER", some "BINARY", 0, 1, 1⟩, "not an error")
      else if zColumn = "name" then
        (0, ⟨some "TEXT", some "NOCASE", 1, 0, 0⟩, "not an error")
      else if zColumn = "value" then
        (0, ⟨some "REAL", some "BINARY", 0, 0, 0⟩, "not an error")
      else if zColumn = "created_at" then
        (0, ⟨some "DATETIME", some "BINARY", 0, 0, 0⟩, "not an error")
      else
        (1, out0, "no such table column: " ++ zTable ++ "." ++ zColumn)
    else
      (1, out0, "no such table column: " ++ zTable ++ "." ++ zColumn)
  sqlite3_errmsg := fun db => (some db, db)

/-- An engine holding two tables named `t`, as after
`CREATE TABLE t(a INTEGER)` and
`CREATE TEMP TABLE t(a TEXT NOT NULL COLLATE NOCASE)`. A database name selects
the schema of that name; for a null database name the native call searches
every schema, temp before main (the page the method's comment refers to,
https://www.sqlite.org/c3ref/table_column_metadata.html). Its state is the
current error text of the connection. -/
def shadowEngine : Engine String where
  sqlite3_table_column_metadata := fun _ zSchema zTable zColumn out0 =>
    if zTable = "t" ∧ zColumn = "a" then
      if zSchema = none ∨ zSchema = some "temp" then
        (0, ⟨some "TEXT", some "NOCASE", 1, 0, 0⟩, "not an error")
      else if zSchema = some "main" then
        (0, ⟨some "INTEGER", some "BINARY", 0, 0, 0⟩, "not an error")
      else
        (1, out0, "no such table column: " ++ zTable ++ "." ++ zColumn)
    else
      (1, out0, "no such table column: " ++ zTable ++ "." ++ zColumn)
  sqlite3_errmsg := fun db => (some db, db)

/-! ## Rejection of empty names -/

/-- C1: with an empty table name, for every schema and every column (the empty
one included), the method returns the error "table name cannot be empty" with
all five outputs zero-valued, and invokes no native entry point (neither
the metadata lookup nor the error text accessor); the engine state is
untouched. -/
theorem table_empty_rejected {σ : Type} (c : SQLiteConn σ) (E : Engine σ)
    (schema column : String) :
    (c.TableColumnMetadata E schema "" column).ret
        = ⟨"", "", false, false, false, some "table name cannot be empty"⟩
      ∧ (c.TableColumnMetadata E schema "" column).calls = []
      ∧ (c.TableColumnMetadata E schema "" column).db = c.db := by
  simp [SQLiteConn.TableColumnMetadata]

/-- C2: with an empty column name, for every schema and every table (empty or
not), the method returns a non-nil error with all five outputs zero-valued and
invokes no native entry point. -/
theorem column_empty_rejected {σ : Type} (c : SQLiteConn σ) (E : Engine σ)
    (schema table : String) :
    (c.TableColumnMetadata E schema table "").ret.err ≠ none
      ∧ (c.TableColumnMetadata E schema table "").ret.dataType = ""
      ∧ (c.TableColumnMetadata E schema table "").ret.collSeq = ""
      ∧ (c.TableColumnMetadata E schema table "").ret.notNull = false
      ∧ (c.TableColumnMetadata E schema table "").ret.primaryKey = false
      ∧ (c.TableColumnMetadata E schema table "").ret.autoinc = false
      ∧ (c.TableColumnMetadata E schema table "").calls = []
      ∧ (c.TableColumnMetadata E schema table "").db = c.db := by
  by_cases ht : table = "" <;> simp [SQLiteConn.TableColumnMetadata, ht]

/-- C3, as stated, fails: with both names empty the error text is the one of
the table check, not "column name cannot be empty". -/
theorem empty_names_table_error_first :
    ((SQLiteConn.mk "not an error").TableColumnMetadata testEngine "" "" "").ret.err
        = some "table name cannot be empty"
      ∧ ((SQLiteConn.mk "not an error").TableColumnMetadata testEngine "" "" "").ret.err
        ≠ some "column name cannot be empty" := by
  decide

/-- C3, amended: with an empty column name the error text is exactly
"column name cannot be empty" for every schema and every non-empty table; when
the table name is empty as well, the table check comes first and the text is
"table name cannot be empty". -/
theorem column_empty_text {σ : Type} (c : SQLiteConn σ) (E : Engine σ)
    (schema table : String) :
    (c.TableColumnMetadata E schema table "").ret.err
      = some (if table = "" then "table name cannot be empty"
              else "column name cannot be empty") := by
  by_cases ht : table = "" <;> simp [SQLiteConn.TableColumnMetadata, ht]

/-! ## The native call -/

/-- C4: for every schema, table, column and every response of the native
engine, whenever the method returns a non-nil error all five outputs are
zero-valued, whatever the native call wrote into its output parameters. -/
theorem error_outputs_zero {σ : Type} (c : SQLiteConn σ) (E : Engine σ)
    (schema table column : String)
    (herr : (c.TableColumnMetadata E schema table column).ret.err ≠ none) :
    (c.TableColumnMetadata E schema table column).ret.dataType = ""
      ∧ (c.TableColumnMetadata E schema table column).ret.collSeq = ""
      ∧ (c.TableColumnMetadata E schema table column).ret.notNull = false
      ∧ (c.TableColumnMetadata E schema table column).ret.primaryKey = false
      ∧ (c.TableColumnMetadata E schema table column).ret.autoinc = false := by
  by_cases ht : table = ""
  · simp [SQLiteConn.TableColumnMetadata, ht]
  · by_cases hc : column = ""
    · simp [SQLiteConn.TableColumnMetadata, ht, hc]
    · by_cases hrc : (callNative c E schema table column).1 = SQLITE_OK
      · simp [SQLiteConn.TableColumnMetadata, ht, hc, hrc] at herr
      · simp [SQLiteConn.TableColumnMetadata, ht, hc, hrc]

/-- C4 at an engine that fails with status 5 after having written "TEXT",
"NOCASE", 1, 1, 1 into its output parameters: none of them is returned. -/
theorem error_outputs_zero_witness :
    ((SQLiteConn.mk ()).TableColumnMetadata
        (constEngine 5 ⟨some "TEXT", some "NOCASE", 1, 1, 1⟩ (some "database is locked"))
        "main" "test_table" "name").ret.err ≠ none
      ∧ (((SQLiteConn.mk ()).TableColumnMetadata
        (constEngine 5 ⟨some "TEXT", some "NOCASE", 1, 1, 1⟩ (some "database is locked"))
        "main" "test_table" "name").ret.dataType = ""
      ∧ ((SQLiteConn.mk ()).TableColumnMetadata
        (constEngine 5 ⟨some "TEXT", some "NOCASE", 1, 1, 1⟩ (some "database is locked"))
        "main" "test_table" "name").ret.collSeq = ""
      ∧ ((SQLiteConn.mk ()).TableColumnMetadata
        (constEngine 5 ⟨some "TEXT", some "NOCASE", 1, 1, 1⟩ (some "database is locked"))
        "main" "test_table" "name").ret.notNull = false
      ∧ ((SQLiteConn.mk ()).TableColumnMetadata
        (constEngine 5 ⟨some "TEXT", some "NOCASE", 1, 1, 1⟩ (some "database is locked"))
        "main" "test_table" "name").ret.primaryKey = false
      ∧ ((SQLiteConn.mk ()).TableColumnMetadata
        (constEngine 5 ⟨some "TEXT", some "NOCASE", 1, 1, 1⟩ (some "database is locked"))
        "main" "test_table" "name").ret.autoinc = false) :=
  ⟨by decide,
   error_outputs_zero (SQLiteConn.mk ())
     (constEngine 5 ⟨some "TEXT", some "NOCASE", 1, 1, 1⟩ (some "database is locked"))
     "main" "test_table" "name" (by decide)⟩

/-- C5: for non-empty table and column, when the native call returns
`SQLITE_OK` with both string parameters set, the method returns a nil error,
`dataType` and `collSeq` equal to the two C strings, and each flag true
exactly when the corresponding native integer is non-zero. -/
theorem success_copies_outputs {σ : Type} (c : SQLiteConn σ) (E : Engine σ)
    (schema table column dt cs : String)
    (ht : table ≠ "") (hc : column ≠ "")
    (hrc : (callNative c E schema table column).1 = SQLITE_OK)
    (hdt : (callNative c E schema table column).2.1.pzDataType = some dt)
    (hcs : (callNative c E schema table column).2.1.pzCollSeq = some cs) :
    (c.TableColumnMetadata E schema table column).ret.err = none
      ∧ (c.TableColumnMetadata E schema table column).ret.dataType = dt
      ∧ (c.TableColumnMetadata E schema table column).ret.collSeq = cs
      ∧ ((c.TableColumnMetadata E schema table column).ret.notNull = true
          ↔ (callNative c E schema table column).2.1.pNotNull ≠ 0)
      ∧ ((c.TableColumnMetadata E schema table column).ret.primaryKey = true
          ↔ (callNative c E schema table column).2.1.pPrimaryKey ≠ 0)
      ∧ ((c.TableColumnMetadata E schema table column).ret.autoinc = true
          ↔ (callNative c E schema table column).2.1.pAutoinc ≠ 0) := by
  simp [SQLiteConn.TableColumnMetadata, ht, hc, hrc, hdt, hcs, GoString]

/-- C5 at the `name` column of the test table: the engine answers
("TEXT", "NOCASE", 1, 0, 0) and the method returns
("TEXT", "NOCASE", true, false, false, nil). -/
theorem success_copies_outputs_witness :
    ("test_table" ≠ "" ∧ "name" ≠ ""
      ∧ (callNative (SQLiteConn.mk "not an error") testEngine "" "test_table" "name").1 = SQLITE_OK
      ∧ (callNative (SQLiteConn.mk "not an error") testEngine "" "test_table" "name").2.1
          = ⟨some "TEXT", some "NOCASE", 1, 0, 0⟩)
      ∧ ((SQLiteConn.mk "not an error").TableColumnMetadata testEngine "" "test_table" "name").ret
          = ⟨"TEXT", "NOCASE", true, false, false, none⟩
      ∧ ((SQLiteConn.mk "not an error").TableColumnMetadata testEngine
          "" "test_table" "name").ret.err = none
      ∧ ((SQLiteConn.mk "not an error").TableColumnMetadata testEngine
          "" "test_table" "name").ret.dataType = "TEXT"
      ∧ ((SQLiteConn.mk "not an error").TableColumnMetadata testEngine
          "" "test_table" "name").ret.collSeq = "NOCASE" :=
  have h := success_copies_outputs (SQLiteConn.mk "not an error") testEngine
    "" "test_table" "name" "TEXT" "NOCASE"
    (by decide) (by decide) (by decide) (by decide) (by decide)
  ⟨by decide, by decide, h.1, h.2.1, h.2.2.1⟩

/-- C6: for non-empty table and column, the method returns a non-nil error
if and only if the status of the native call differs from `SQLITE_OK`. Every
such status takes the one failure path (the metadata call followed by the
read of the error text); with `SQLITE_OK` the metadata call is the only native
call. -/
theorem error_iff_status {σ : Type} (c : SQLiteConn σ) (E : Engine σ)
    (schema table column : String) (ht : table ≠ "") (hc : column ≠ "") :
    ((c.TableColumnMetadata E schema table column).ret.err ≠ none
        ↔ (callNative c E schema table column).1 ≠ SQLITE_OK)
      ∧ ((callNative c E schema table column).1 ≠ SQLITE_OK →
          (c.TableColumnMetadata E schema table column).calls
            = [NativeCall.sqlite3_table_column_metadata (zSchemaOf schema) (CString table)
                (CString column), NativeCall.sqlite3_errmsg])
      ∧ ((callNative c E schema table column).1 = SQLITE_OK →
          (c.TableColumnMetadata E schema table column).calls
            = [NativeCall.sqlite3_table_column_metadata (zSchemaOf schema) (CString table)
                (CString column)]) := by
  by_cases hrc : (callNative c E schema table column).1 = SQLITE_OK
  · simp [SQLiteConn.TableColumnMetadata, ht, hc, hrc]
  · simp [SQLiteConn.TableColumnMetadata, ht, hc, hrc]

/-- C6 at a table the test engine does not hold: the status is 1 and the
method returns an error; at the `id` column of the test table the status is
`SQLITE_OK` and the error is nil. -/
theorem error_iff_status_witness :
    ("nonexistent_table" ≠ "" ∧ "column" ≠ "")
      ∧ (callNative (SQLiteConn.mk "not an error") testEngine
          "" "nonexistent_table" "column").1 = 1
      ∧ (((SQLiteConn.mk "not an error").TableColumnMetadata testEngine
            "" "nonexistent_table" "column").ret.err ≠ none
          ↔ (callNative (SQLiteConn.mk "not an error") testEngine
            "" "nonexistent_table" "column").1 ≠ SQLITE_OK)
      ∧ ((SQLiteConn.mk "not an error").TableColumnMetadata testEngine
            "" "nonexistent_table" "column").ret.err ≠ none
      ∧ ((SQLiteConn.mk "not an error").TableColumnMetadata testEngine
            "" "test_table" "id").ret.err = none :=
  ⟨by decide, by decide,
   (error_iff_status (SQLiteConn.mk "not an error") testEngine
      "" "nonexistent_table" "column" (by decide) (by decide)).1,
   by decide, by decide⟩

/-- C7: for non-empty table and column, when the status of the native call
differs from `SQLITE_OK` the error text is
"sqlite3_table_column_metadata failed: " followed by the text
`sqlite3_errmsg` returns on the engine state left by the failed call; the
accessor is invoked once, after the metadata call. -/
theorem native_failure_message {σ : Type} (c : SQLiteConn σ) (E : Engine σ)
    (schema table column : String) (ht : table ≠ "") (hc : column ≠ "")
    (hrc : (callNative c E schema table column).1 ≠ SQLITE_OK) :
    (c.TableColumnMetadata E schema table column).ret.err
        = some ("sqlite3_table_column_metadata failed: "
            ++ GoString (E.sqlite3_errmsg (callNative c E schema table column).2.2).1)
      ∧ (c.TableColumnMetadata E schema table column).calls
        = [NativeCall.sqlite3_table_column_metadata (zSchemaOf schema) (CString table)
            (CString column), NativeCall.sqlite3_errmsg] := by
  simp [SQLiteConn.TableColumnMetadata, ht, hc, hrc]

/-- C7 at a column the test table does not have: the connection's error text
is "not an error" before the call, the failed call sets it, and the method
returns the text set by the failed call. -/
theorem native_failure_message_witness :
    ("test_table" ≠ "" ∧ "nonexistent_column" ≠ ""
      ∧ (callNative (SQLiteConn.mk "not an error") testEngine
          "" "test_table" "nonexistent_column").1 ≠ SQLITE_OK)
      ∧ (testEngine.sqlite3_errmsg (callNative (SQLiteConn.mk "not an error") testEngine
          "" "test_table" "nonexistent_column").2.2).1
          = some "no such table column: test_table.nonexistent_column"
      ∧ ((SQLiteConn.mk "not an error").TableColumnMetadata testEngine
          "" "test_table" "nonexistent_column").ret.err
          = some "sqlite3_table_column_metadata failed: no such table column: test_table.nonexistent_column"
      ∧ ((SQLiteConn.mk "not an error").TableColumnMetadata testEngine
          "" "test_table" "nonexistent_column").ret.err
          = some ("sqlite3_table_column_metadata failed: "
              ++ GoString (testEngine.sqlite3_errmsg
                  (callNative (SQLiteConn.mk "not an error") testEngine
                    "" "test_table" "nonexistent_column").2.2).1) :=
  ⟨by decide, by decide, by decide,
   (native_failure_message (SQLiteConn.mk "not an error") testEngine
      "" "test_table" "nonexistent_column" (by decide) (by decide) (by decide)).1⟩

/-- C8: for non-empty table and column, when the native call returns
`SQLITE_OK` the error is nil whatever the string parameters hold; a string
parameter left null gives the empty string, one that is set gives its C
string, and the three flags are copied from the native integers. -/
theorem success_unset_strings {σ : Type} (c : SQLiteConn σ) (E : Engine σ)
    (schema table column : String) (ht : table ≠ "") (hc : column ≠ "")
    (hrc : (callNative c E schema table column).1 = SQLITE_OK) :
    (c.TableColumnMetadata E schema table column).ret.err = none
      ∧ ((callNative c E schema table column).2.1.pzDataType = none →
          (c.TableColumnMetadata E schema table column).ret.dataType = "")
      ∧ ((callNative c E schema table column).2.1.pzCollSeq = none →
          (c.TableColumnMetadata E schema table column).ret.collSeq = "")
      ∧ (∀ s, (callNative c E schema table column).2.1.pzDataType = some s →
          (c.TableColumnMetadata E schema table column).ret.dataType = s)
      ∧ (∀ s, (callNative c E schema table column).2.1.pzCollSeq = some s →
          (c.TableColumnMetadata E schema table column).ret.collSeq = s)
      ∧ (c.TableColumnMetadata E schema table column).ret.notNull
          = decide ((callNative c E schema table column).2.1.pNotNull ≠ 0)
      ∧ (c.TableColumnMetadata E schema table column).ret.primaryKey
          = decide ((callNative c E schema table column).2.1.pPrimaryKey ≠ 0)
      ∧ (c.TableColumnMetadata E schema table column).ret.autoinc
          = decide ((callNative c E schema table column).2.1.pAutoinc ≠ 0) := by
  refine ⟨?_, ?_, ?_, ?_, ?_, ?_, ?_, ?_⟩
  · simp [SQLiteConn.TableColumnMetadata, ht, hc, hrc]
  · intro h
    simp [SQLiteConn.TableColumnMetadata, ht, hc, hrc, h]
  · intro h
    simp [SQLiteConn.TableColumnMetadata, ht, hc, hrc, h]
  · intro s h
    simp [SQLiteConn.TableColumnMetadata, ht, hc, hrc, h, GoString]
  · intro s h
    simp [SQLiteConn.TableColumnMetadata, ht, hc, hrc, h, GoString]
  · simp [SQLiteConn.TableColumnMetadata, ht, hc, hrc]
  · simp [SQLiteConn.TableColumnMetadata, ht, hc, hrc]
  · simp [SQLiteConn.TableColumnMetadata, ht, hc, hrc]

/-- C8 at an engine that succeeds and leaves the declared type null while
setting the collation and the flags (2, 0, -1): the method returns
("", "BINARY", true, false, true, nil). -/
theorem success_unset_strings_witness :
    ("t" ≠ "" ∧ "x" ≠ ""
      ∧ (callNative (SQLiteConn.mk ()) (constEngine 0 ⟨none, some "BINARY", 2, 0, -1⟩ none)
          "" "t" "x").1 = SQLITE_OK)
      ∧ ((SQLiteConn.mk ()).TableColumnMetadata
          (constEngine 0 ⟨none, some "BINARY", 2, 0, -1⟩ none) "" "t" "x").ret
          = ⟨"", "BINARY", true, false, true, none⟩
      ∧ ((SQLiteConn.mk ()).TableColumnMetadata
          (constEngine 0 ⟨none, none, 0, 0, 0⟩ none) "" "t" "x").ret
          = ⟨"", "", false, false, false, none⟩
      ∧ ((SQLiteConn.mk ()).TableColumnMetadata
          (constEngine 0 ⟨none, some "BINARY", 2, 0, -1⟩ none) "" "t" "x").ret.err = none :=
  ⟨by decide, by decide, by decide,
   (success_unset_strings (SQLiteConn.mk ())
      (constEngine 0 ⟨none, some "BINARY", 2, 0, -1⟩ none) "" "t" "x"
      (by decide) (by decide) (by decide)).1⟩

/-! ## The compiled-out variant -/

/-- C9: in the build without the feature, for every connection, schema, table
and column the method returns the same fixed error and all five outputs
zero-valued; the returned values do not depend on the arguments or on the
connection, no native entry point is invoked and the engine state is
untouched. -/
theorem omit_fixed_error {σ τ : Type} (c : SQLiteConn σ) (d : SQLiteConn τ)
    (schema table column schema2 table2 column2 : String) :
    (Omit.TableColumnMetadata c schema table column).ret
        = ⟨"", "", false, false, false,
            some "sqlite3: TableColumnMetadata requires the sqlite_column_metadata build tag when using the libsqlite3 build tag"⟩
      ∧ (Omit.TableColumnMetadata c schema table column).ret
        = (Omit.TableColumnMetadata d schema2 table2 column2).ret
      ∧ (Omit.TableColumnMetadata c schema table column).calls = []
      ∧ (Omit.TableColumnMetadata c schema table column).db = c.db := by
  simp [Omit.TableColumnMetadata]

/-! ## Default schema -/

/-- C10 does not hold of the code: the method hands the null pointer to the
engine for the empty schema and the C string "main" for the schema "main",
and never substitutes one for the other. On a connection where a temp table
shadows a main table of the same name, the empty schema returns the temp
table's metadata ("TEXT", "NOCASE", true, false, false, nil) and the schema
"main" returns the main table's ("INTEGER", "BINARY", false, false, false,
nil), although the method's comment says the schema "can be empty for main". -/
theorem empty_schema_is_not_main :
    zSchemaOf "" = none ∧ zSchemaOf "main" = some "main"
      ∧ ((SQLiteConn.mk "not an error").TableColumnMetadata shadowEngine "" "t" "a").calls
          = [NativeCall.sqlite3_table_column_metadata none "t" "a"]
      ∧ ((SQLiteConn.mk "not an error").TableColumnMetadata shadowEngine "main" "t" "a").calls
          = [NativeCall.sqlite3_table_column_metadata (some "main") "t" "a"]
      ∧ ((SQLiteConn.mk "not an error").TableColumnMetadata shadowEngine "" "t" "a").ret
          = ⟨"TEXT", "NOCASE", true, false, false, none⟩
      ∧ ((SQLiteConn.mk "not an error").TableColumnMetadata shadowEngine "main" "t" "a").ret
          = ⟨"INTEGER", "BINARY", false, false, false, none⟩
      ∧ ((SQLiteConn.mk "not an error").TableColumnMetadata shadowEngine "main" "t" "a").ret
          ≠ ((SQLiteConn.mk "not an error").TableColumnMetadata shadowEngine "" "t" "a").ret := by
  decide

end sqlite3
